import Mathlib

/-!
Verification of the table-tennis physics and rules engine (`game.py`).

The embedding models the pure game logic: ball kinematics (`Ball.update`),
table and paddle collision resolution (`Ball.bounce_table`, `Ball.bounce_paddle`),
out-of-bounds detection, the speed clamp, and the match state machine
(`Game.award_point`, `Game.check_win`, `Game.determine_server`,
`Game.reset_match`, `Game.update`).

Modelling conventions:
* Python floats are modelled as real numbers.
* The random draws in `Ball.reset` (serve angle sine/cosine and the initial
  upward velocity) are passed in as explicit parameters `s`, `c`, `u`.
* Render-only state is excluded: the ball trail, particles, paddle colors,
  fonts, camera, and all OpenGL drawing.  The paddle tilt is kept because
  `Game.update` mutates it.
* `Game.update` additionally returns the list of scoring resolutions
  (`GameEvent.pointScored`) performed during the tick, one entry per
  `award_point` call site reached, instrumenting the code's control flow.
-/

open Classical

noncomputable section

/-- Table half width along x (`TABLE_HALF_WIDTH = 5.0`). -/
def TABLE_HALF_WIDTH : ℝ := 5.0

/-- Table half depth along the play axis z (`TABLE_HALF_DEPTH = 8.0`). -/
def TABLE_HALF_DEPTH : ℝ := 8.0

/-- Height of the table surface (`TABLE_HEIGHT = 0.0`). -/
def TABLE_HEIGHT : ℝ := 0.0

/-- Net height (`NET_HEIGHT = 0.6`). -/
def NET_HEIGHT : ℝ := 0.6

/-- Paddle width (`PADDLE_WIDTH = 1.2`). -/
def PADDLE_WIDTH : ℝ := 1.2

/-- Paddle height (`PADDLE_HEIGHT = 1.6`). -/
def PADDLE_HEIGHT : ℝ := 1.6

/-- Paddle depth (`PADDLE_DEPTH = 0.15`). -/
def PADDLE_DEPTH : ℝ := 0.15

/-- Paddle distance from the table center (`PADDLE_Z_OFFSET = 6.5`). -/
def PADDLE_Z_OFFSET : ℝ := 6.5

/-- Ball radius (`BALL_RADIUS = 0.15`). -/
def BALL_RADIUS : ℝ := 0.15

/-- Initial serve speed (`BALL_INITIAL_SPEED = 8.0`). -/
def BALL_INITIAL_SPEED : ℝ := 8.0

/-- Downward acceleration (`GRAVITY = -15.0`). -/
def GRAVITY : ℝ := -15.0

/-- Points needed to win (`POINTS_TO_WIN = 11`). -/
def POINTS_TO_WIN : ℕ := 11

/-- Required winning margin (`WIN_BY = 2`). -/
def WIN_BY : ℕ := 2

/-- Deuce threshold (`DEUCE_POINT = 10`). -/
def DEUCE_POINT : ℕ := 10

/-- The local `max_speed = 20.0` used by the speed clamp in `Game.update`. -/
def max_speed : ℝ := 20.0

/-- Physics state of the ball (`Ball.__init__` / `Ball.reset` fields).
The render-only trail is excluded. -/
structure Ball where
  x : ℝ
  y : ℝ
  z : ℝ
  vx : ℝ
  vy : ℝ
  vz : ℝ
  spin_x : ℝ
  spin_z : ℝ
  table_bounces : ℕ

/-- Model of `Ball.reset(server)`: `s`, `c`, `u` are the evaluated random draws
(`sin(angle)`, `cos(angle)`, and `random.uniform(1.0, 2.5)`). -/
def Ball.reset (server : ℕ) (s c u : ℝ) : Ball :=
  let direction : ℝ := if server = 1 then 1 else -1
  { x := 0
    y := NET_HEIGHT + 1.0
    z := 0
    vx := BALL_INITIAL_SPEED * s
    vy := u
    vz := direction * BALL_INITIAL_SPEED * c
    spin_x := 0
    spin_z := 0
    table_bounces := 0 }

/-- Model of `Ball.update(dt)`: gravity on `vy`, explicit Euler position update,
then the spin effect on the horizontal velocity components. -/
def Ball.update (b : Ball) (dt : ℝ) : Ball :=
  let vy := b.vy + GRAVITY * dt
  let x := b.x + b.vx * dt
  let y := b.y + vy * dt
  let z := b.z + b.vz * dt
  let vx := b.vx + b.spin_x * dt * 0.5
  let vz := b.vz + b.spin_z * dt * 0.5
  { b with x := x, y := y, z := z, vx := vx, vy := vy, vz := vz }

/-- Model of `Ball.bounce_table`: returns the updated ball and the method's
boolean result. -/
def Ball.bounce_table (b : Ball) : Ball × Bool :=
  if b.y < TABLE_HEIGHT + BALL_RADIUS ∧ b.vy < 0 then
    if |b.x| < TABLE_HALF_WIDTH ∧ |b.z| < TABLE_HALF_DEPTH then
      ({ b with y := TABLE_HEIGHT + BALL_RADIUS
                vy := -b.vy * 0.75
                table_bounces := b.table_bounces + 1 }, true)
    else (b, false)
  else (b, false)

/-- The guard of `Ball.bounce_table` as a single predicate: ball below the
surface threshold while moving downward, and horizontally within table
bounds. -/
def bounceCond (b : Ball) : Prop :=
  (b.y < TABLE_HEIGHT + BALL_RADIUS ∧ b.vy < 0) ∧
    (|b.x| < TABLE_HALF_WIDTH ∧ |b.z| < TABLE_HALF_DEPTH)

/-- Paddle state (`Paddle.__init__` fields; color excluded as render-only). -/
structure Paddle where
  z : ℝ
  x : ℝ
  y : ℝ
  width : ℝ
  height : ℝ
  depth : ℝ
  speed : ℝ
  tilt : ℝ
  target_tilt : ℝ

/-- Model of `Paddle.__init__(z, color)`. -/
def Paddle.init (z : ℝ) : Paddle :=
  { z := z
    x := 0
    y := PADDLE_HEIGHT / 2
    width := PADDLE_WIDTH
    height := PADDLE_HEIGHT
    depth := PADDLE_DEPTH
    speed := 9.0
    tilt := 0
    target_tilt := 0 }

/-- Model of `Paddle.update(dt)`: smooth tilt interpolation. -/
def Paddle.update (p : Paddle) (dt : ℝ) : Paddle :=
  { p with tilt := p.tilt + (p.target_tilt - p.tilt) * 10.0 * dt }

/-- Model of `Ball.bounce_paddle(paddle, particles)` (particle emission excluded):
returns the updated ball and the method's boolean result. -/
def Ball.bounce_paddle (b : Ball) (p : Paddle) : Ball × Bool :=
  let paddle_face_z := if p.z > 0 then p.z - p.depth / 2 else p.z + p.depth / 2
  let moving_toward : Prop := if p.z > 0 then b.vz > 0 else b.vz < 0
  if ¬ moving_toward then (b, false)
  else
    let ball_edge := if p.z > 0 then b.z + BALL_RADIUS else b.z - BALL_RADIUS
    if (p.z > 0 ∧ ball_edge ≥ paddle_face_z) ∨ (p.z < 0 ∧ ball_edge ≤ paddle_face_z) then
      if |b.x - p.x| ≤ p.width / 2 + BALL_RADIUS ∧ |b.y - p.y| ≤ p.height / 2 + BALL_RADIUS then
        let znew := if p.z > 0 then paddle_face_z - BALL_RADIUS - 0.01
                    else paddle_face_z + BALL_RADIUS + 0.01
        let offset_x := (b.x - p.x) / (p.width / 2)
        let offset_y := (b.y - p.y) / (p.height / 2)
        ({ b with z := znew
                  vz := -b.vz * 1.05
                  vx := b.vx + offset_x * 3.5
                  spin_x := offset_x * 2.0
                  vy := b.vy + offset_y * 1.5
                  table_bounces := 0 }, true)
      else (b, false)
    else (b, false)

/-- The full collision guard of `Ball.bounce_paddle` as one predicate. -/
def paddleHitCond (b : Ball) (p : Paddle) : Prop :=
  let paddle_face_z := if p.z > 0 then p.z - p.depth / 2 else p.z + p.depth / 2
  let ball_edge := if p.z > 0 then b.z + BALL_RADIUS else b.z - BALL_RADIUS
  (if p.z > 0 then b.vz > 0 else b.vz < 0) ∧
    ((p.z > 0 ∧ ball_edge ≥ paddle_face_z) ∨ (p.z < 0 ∧ ball_edge ≤ paddle_face_z)) ∧
    (|b.x - p.x| ≤ p.width / 2 + BALL_RADIUS ∧ |b.y - p.y| ≤ p.height / 2 + BALL_RADIUS)

/-- Model of `Ball.check_out_of_bounds`. -/
def Ball.check_out_of_bounds (b : Ball) : Prop :=
  |b.x| > TABLE_HALF_WIDTH + 2.0 ∨ b.y < -5.0

/-- Scoring resolutions performed during one tick of `Game.update`:
one `pointScored` entry per `award_point` call site reached. -/
inductive GameEvent where
  | pointScored : ℕ → GameEvent
deriving DecidableEq

/-- The winner string for player 1 (`"Player 1 (Red)"`). -/
def player1Name : String := "Player 1 (Red)"

/-- The winner string for player 2 (`"Player 2 (Blue)"`). -/
def player2Name : String := "Player 2 (Blue)"

/-- Game state (`Game.__init__` fields relevant to the rules engine;
camera, fonts, clock, particle system and window excluded). -/
structure Game where
  player1 : Paddle
  player2 : Paddle
  ball : Ball
  score_p1 : ℕ
  score_p2 : ℕ
  total_points : ℕ
  current_server : ℕ
  game_over : Bool
  winner : Option String
  paused : Bool
  waiting_for_serve : Bool

/-- Model of `Game.__init__`: the ball constructor calls `Ball.reset()` with the
default `server=1`; `s`, `c`, `u` are its random draws. -/
def Game.init (s c u : ℝ) : Game :=
  { player1 := Paddle.init (-PADDLE_Z_OFFSET)
    player2 := Paddle.init PADDLE_Z_OFFSET
    ball := Ball.reset 1 s c u
    score_p1 := 0
    score_p2 := 0
    total_points := 0
    current_server := 1
    game_over := false
    winner := none
    paused := false
    waiting_for_serve := true }

/-- Model of `Game.determine_server`. -/
def Game.determine_server (g : Game) : ℕ :=
  if DEUCE_POINT ≤ g.score_p1 ∧ DEUCE_POINT ≤ g.score_p2 then
    if g.total_points % 2 = 0 then 1 else 2
  else if (g.total_points / 2) % 2 = 0 then 1 else 2

/-- The winning condition of `Game.check_win` for a score `a` against an
opponent score `b`: `a >= POINTS_TO_WIN and a - b >= WIN_BY` (Python int
subtraction, hence the cast to ℤ). -/
def winCond (a b : ℕ) : Prop :=
  POINTS_TO_WIN ≤ a ∧ (WIN_BY : ℤ) ≤ (a : ℤ) - (b : ℤ)

instance (a b : ℕ) : Decidable (winCond a b) :=
  inferInstanceAs (Decidable (POINTS_TO_WIN ≤ a ∧ (WIN_BY : ℤ) ≤ (a : ℤ) - (b : ℤ)))

/-- Model of `Game.check_win`. -/
def Game.check_win (g : Game) : Game :=
  if winCond g.score_p1 g.score_p2 then
    { g with game_over := true, winner := some player1Name }
  else if winCond g.score_p2 g.score_p1 then
    { g with game_over := true, winner := some player2Name }
  else g

/-- The tail of `Game.award_point` after `check_win`: when the match is
not over, recompute the server, wait for the next serve, and reset the
ball toward the new server. -/
def Game.next_serve (g : Game) (s c u : ℝ) : Game :=
  if g.game_over then g
  else
    let server := g.determine_server
    { g with current_server := server
             waiting_for_serve := true
             ball := Ball.reset server s c u }

/-- The head of `Game.award_point`: increment the scoring player's score
and the cumulative point count. -/
def Game.scoreBump (g : Game) (player : ℕ) : Game :=
  let g1 := if player = 1 then { g with score_p1 := g.score_p1 + 1 }
            else { g with score_p2 := g.score_p2 + 1 }
  { g1 with total_points := g1.total_points + 1 }

/-- Model of `Game.award_point(player)`; `s`, `c`, `u` are the random draws of the
`Ball.reset` call it performs when the match is not over. -/
def Game.award_point (g : Game) (player : ℕ) (s c u : ℝ) : Game :=
  ((g.scoreBump player).check_win).next_serve s c u

/-- Model of `Game.reset_match`; `s`, `c`, `u` are the random draws of its
`Ball.reset` call. -/
def Game.reset_match (g : Game) (s c u : ℝ) : Game :=
  { g with score_p1 := 0
           score_p2 := 0
           total_points := 0
           current_server := 1
           game_over := false
           winner := none
           paused := false
           waiting_for_serve := true
           ball := Ball.reset 1 s c u }

/-- Model of `Game.serve_ball`. -/
def Game.serve_ball (g : Game) (s c u : ℝ) : Game :=
  if g.game_over = false ∧ g.waiting_for_serve = false then
    { g with ball := Ball.reset g.current_server s c u, waiting_for_serve := true }
  else g

/-- Model of `Game.toggle_pause`. -/
def Game.toggle_pause (g : Game) : Game :=
  if g.game_over = false then { g with paused := !g.paused } else g

/-- The SPACE key handler in `Game.run`: starts play when waiting for a
serve while not over and not paused. -/
def Game.start_serve (g : Game) : Game :=
  if g.waiting_for_serve = true ∧ g.game_over = false ∧ g.paused = false then
    { g with waiting_for_serve := false }
  else g

/-- The ball after the integration and collision section of `Game.update`:
`Ball.update(dt)`, then `bounce_table`, then `bounce_paddle` against each
(already tilt-updated) paddle in order. -/
def Game.stepBall (g : Game) (dt : ℝ) : Ball :=
  ((((g.ball.update dt).bounce_table).1.bounce_paddle
      (g.player1.update dt)).1.bounce_paddle (g.player2.update dt)).1

/-- The "Limit ball speed" section at the end of `Game.update`. -/
def Game.limit_speed (g : Game) : Game :=
  let speed := Real.sqrt (g.ball.vx ^ 2 + g.ball.vz ^ 2)
  if speed > max_speed then
    let scale := max_speed / speed
    { g with ball := { g.ball with vx := g.ball.vx * scale, vz := g.ball.vz * scale } }
  else g

/-- Model of `Game.update(dt)`: early return unless in play; paddle updates, ball
integration and collisions (`stepBall`); the single `if/elif/elif` scoring
resolution; then the speed clamp.  Also returns the scoring events. -/
def Game.update (g : Game) (dt s c u : ℝ) : Game × List GameEvent :=
  if g.paused = true ∨ g.game_over = true ∨ g.waiting_for_serve = true then (g, [])
  else
    let b := g.stepBall dt
    let g0 : Game := { g with player1 := g.player1.update dt
                              player2 := g.player2.update dt
                              ball := b }
    let r : Game × List GameEvent :=
      if b.z > TABLE_HALF_DEPTH + 1.5 then
        (g0.award_point 1 s c u, [GameEvent.pointScored 1])
      else if b.z < -TABLE_HALF_DEPTH - 1.5 then
        (g0.award_point 2 s c u, [GameEvent.pointScored 2])
      else if b.check_out_of_bounds then
        if b.vz > 0 then (g0.award_point 1 s c u, [GameEvent.pointScored 1])
        else (g0.award_point 2 s c u, [GameEvent.pointScored 2])
      else (g0, [])
    (r.1.limit_speed, r.2)

/-- The serve-alternation rule as a function of the two scores alone,
with the cumulative point count replaced by `s1 + s2` (the spec's reading
of `determine_server` under the `total_points = score_p1 + score_p2`
invariant). -/
def serverOfScores (s1 s2 : ℕ) : ℕ :=
  if DEUCE_POINT ≤ s1 ∧ DEUCE_POINT ≤ s2 then
    if (s1 + s2) % 2 = 0 then 1 else 2
  else if ((s1 + s2) / 2) % 2 = 0 then 1 else 2

/-- Game states reachable from construction by the state-mutating
operations of the engine. -/
inductive Reachable : Game → Prop where
  | init (s c u : ℝ) : Reachable (Game.init s c u)
  | update (g : Game) (dt s c u : ℝ) : Reachable g → Reachable (g.update dt s c u).1
  | award (g : Game) (p : ℕ) (s c u : ℝ) : Reachable g → Reachable (g.award_point p s c u)
  | reset (g : Game) (s c u : ℝ) : Reachable g → Reachable (g.reset_match s c u)
  | serve (g : Game) (s c u : ℝ) : Reachable g → Reachable (g.serve_ball s c u)
  | pause (g : Game) : Reachable g → Reachable g.toggle_pause
  | start (g : Game) : Reachable g → Reachable g.start_serve

/-- A ball state from explicit coordinates (concrete test states). -/
def mkBall (x y z vx vy vz sx sz : ℝ) (tb : ℕ) : Ball :=
  { x := x, y := y, z := z, vx := vx, vy := vy, vz := vz,
    spin_x := sx, spin_z := sz, table_bounces := tb }

/-- An in-play game state (not paused, not over, not awaiting a serve)
with the standard paddles, a given ball and given scores. -/
def inPlayGame (b : Ball) (s1 s2 tp : ℕ) : Game :=
  { player1 := Paddle.init (-PADDLE_Z_OFFSET)
    player2 := Paddle.init PADDLE_Z_OFFSET
    ball := b
    score_p1 := s1
    score_p2 := s2
    total_points := tp
    current_server := 1
    game_over := false
    winner := none
    paused := false
    waiting_for_serve := false }

/-- In-play state whose ball is about to make its second consecutive table
bounce on player 2's half (one prior bounce recorded, no paddle hit since),
well inside the table. -/
def gC1 : Game := inPlayGame (mkBall 0 0.1 3 0 (-1) (-1) 0 0 1) 0 0 0

/-- In-play state whose ball has a large downward vertical velocity and a
small horizontal velocity. -/
def gC2 : Game := inPlayGame (mkBall 0 5 0 0 (-30) 1 0 0 0) 0 0 0

/-- A ball meeting the table-bounce guard with nonzero horizontal
velocity, landed on player 2's half. -/
def ballC5 : Ball := mkBall 1 0.1 3 3 (-2) 4 0 0 0

/-- A ball at rest with nonzero topspin. -/
def ballC6 : Ball := mkBall 0 1 0 0 0 0 2 0 0

/-- In-play state whose ball already satisfies the table-bounce guard. -/
def gC7 : Game := inPlayGame (mkBall 0 0.1 0 0 (-1) 1 0 0 0) 0 0 0

/-- In-play state whose ball is mid-air with zero velocity: no collision,
scoring or clamping condition holds. -/
def gQuiet : Game := inPlayGame (mkBall 0 2 0 0 0 0 0 0 0) 0 0 0

/-- In-play state at scores (10, 5), one point from a player-1 win. -/
def gC3 : Game := inPlayGame (mkBall 0 2 0 0 0 0 0 0 0) 10 5 15

/-- In-play state whose ball is already beyond player 2's end of the play
axis (z = 10 > TABLE_HALF_DEPTH + 1.5). -/
def gC8 : Game := inPlayGame (mkBall 0 2 10 0 0 0 0 0 0) 0 0 0

/-- A deuce state (both scores at the deuce threshold). -/
def gDeuce : Game := inPlayGame (mkBall 0 2 0 0 0 0 0 0 0) 10 10 20

/-- The deuce state one point later. -/
def gDeuceNext : Game := inPlayGame (mkBall 0 2 0 0 0 0 0 0 0) 11 10 21

end

/-- A zero-dt paddle update is the identity. -/
theorem paddle_update_zero (p : Paddle) : p.update 0 = p := by
  simp [Paddle.update]

/-- A zero-dt ball integration is the identity on the physics state. -/
theorem ball_update_zero (b : Ball) : b.update 0 = b := by
  simp [Ball.update]

/-- Property: `bounce_table` fires exactly on `bounceCond`. -/
theorem bounce_table_of (b : Ball) (h : bounceCond b) :
    b.bounce_table =
      ({ b with y := TABLE_HEIGHT + BALL_RADIUS
                vy := -b.vy * 0.75
                table_bounces := b.table_bounces + 1 }, true) := by
  unfold Ball.bounce_table
  rw [if_pos h.1, if_pos h.2]

/-- Property: `bounce_table` is the identity when `bounceCond` fails. -/
theorem bounce_table_of_not (b : Ball) (h : ¬ bounceCond b) :
    b.bounce_table = (b, false) := by
  unfold Ball.bounce_table
  by_cases h1 : b.y < TABLE_HEIGHT + BALL_RADIUS ∧ b.vy < 0
  · rw [if_pos h1, if_neg (fun h2 => h ⟨h1, h2⟩)]
  · rw [if_neg h1]

/-- Property: `bounce_paddle` is the identity when the collision guard fails. -/
theorem bounce_paddle_of_not (b : Ball) (p : Paddle) (h : ¬ paddleHitCond b p) :
    b.bounce_paddle p = (b, false) := by
  unfold Ball.bounce_paddle
  unfold paddleHitCond at h
  by_cases h1 : if p.z > 0 then b.vz > 0 else b.vz < 0
  · rw [if_neg (not_not_intro h1)]
    by_cases h2 : (p.z > 0 ∧ (if p.z > 0 then b.z + BALL_RADIUS else b.z - BALL_RADIUS) ≥
          (if p.z > 0 then p.z - p.depth / 2 else p.z + p.depth / 2)) ∨
        (p.z < 0 ∧ (if p.z > 0 then b.z + BALL_RADIUS else b.z - BALL_RADIUS) ≤
          (if p.z > 0 then p.z - p.depth / 2 else p.z + p.depth / 2))
    · rw [if_pos h2, if_neg (fun h3 => h ⟨h1, h2, h3⟩)]
    · rw [if_neg h2]
  · rw [if_pos h1]

/-- The speed clamp is the identity when the squared horizontal speed is
within the squared maximum. -/
theorem limit_speed_of_le (g : Game)
    (h : g.ball.vx ^ 2 + g.ball.vz ^ 2 ≤ max_speed ^ 2) : g.limit_speed = g := by
  unfold Game.limit_speed
  rw [if_neg]
  exact not_lt.mpr (le_trans (Real.sqrt_le_sqrt h)
    (le_of_eq (Real.sqrt_sq (by norm_num [max_speed]))))

/-- After the speed clamp, the squared horizontal speed is at most the
squared maximum. -/
theorem limit_speed_bound (g : Game) :
    (g.limit_speed).ball.vx ^ 2 + (g.limit_speed).ball.vz ^ 2 ≤ max_speed ^ 2 := by
  unfold Game.limit_speed
  have hs : (0:ℝ) ≤ g.ball.vx ^ 2 + g.ball.vz ^ 2 := by positivity
  by_cases h : Real.sqrt (g.ball.vx ^ 2 + g.ball.vz ^ 2) > max_speed
  · rw [if_pos h]
    have hpos : 0 < Real.sqrt (g.ball.vx ^ 2 + g.ball.vz ^ 2) :=
      lt_trans (by norm_num [max_speed]) h
    have hsq : Real.sqrt (g.ball.vx ^ 2 + g.ball.vz ^ 2) ^ 2 =
        g.ball.vx ^ 2 + g.ball.vz ^ 2 := Real.sq_sqrt hs
    have hs0 : (0:ℝ) < g.ball.vx ^ 2 + g.ball.vz ^ 2 := by nlinarith
    have key : (g.ball.vx * (max_speed / Real.sqrt (g.ball.vx ^ 2 + g.ball.vz ^ 2))) ^ 2 +
        (g.ball.vz * (max_speed / Real.sqrt (g.ball.vx ^ 2 + g.ball.vz ^ 2))) ^ 2 =
        max_speed ^ 2 := by
      field_simp
      ring
    exact le_of_eq key
  · rw [if_neg h]
    push_neg at h
    calc g.ball.vx ^ 2 + g.ball.vz ^ 2 =
        Real.sqrt (g.ball.vx ^ 2 + g.ball.vz ^ 2) ^ 2 := (Real.sq_sqrt hs).symm
      _ ≤ max_speed ^ 2 := by
          have := Real.sqrt_nonneg (g.ball.vx ^ 2 + g.ball.vz ^ 2)
          nlinarith

/-- The speed clamp does not change player-1's score. -/
theorem limit_speed_score_p1 (g : Game) : (g.limit_speed).score_p1 = g.score_p1 := by
  simp only [Game.limit_speed]; split <;> rfl

/-- The speed clamp does not change player-2's score. -/
theorem limit_speed_score_p2 (g : Game) : (g.limit_speed).score_p2 = g.score_p2 := by
  simp only [Game.limit_speed]; split <;> rfl

/-- The speed clamp does not change the cumulative point count. -/
theorem limit_speed_total (g : Game) : (g.limit_speed).total_points = g.total_points := by
  simp only [Game.limit_speed]; split <;> rfl

/-- The speed clamp does not change the ball's bounce counter. -/
theorem limit_speed_bounces (g : Game) :
    (g.limit_speed).ball.table_bounces = g.ball.table_bounces := by
  simp only [Game.limit_speed]; split <;> rfl

/-- Property: `check_win` does not change player-1's score. -/
theorem check_win_score_p1 (g : Game) : (g.check_win).score_p1 = g.score_p1 := by
  unfold Game.check_win; split
  · rfl
  · split <;> rfl

/-- Property: `check_win` does not change player-2's score. -/
theorem check_win_score_p2 (g : Game) : (g.check_win).score_p2 = g.score_p2 := by
  unfold Game.check_win; split
  · rfl
  · split <;> rfl

/-- Property: `check_win` does not change the cumulative point count. -/
theorem check_win_total (g : Game) : (g.check_win).total_points = g.total_points := by
  unfold Game.check_win; split
  · rfl
  · split <;> rfl

/-- Property: `determine_server` reads only the two scores and the point count. -/
theorem determine_server_congr (g h : Game) (h1 : g.score_p1 = h.score_p1)
    (h2 : g.score_p2 = h.score_p2) (h3 : g.total_points = h.total_points) :
    g.determine_server = h.determine_server := by
  unfold Game.determine_server
  rw [h1, h2, h3]

/-- Property: `next_serve` does not change player-1's score. -/
theorem next_serve_score_p1 (g : Game) (s c u : ℝ) :
    (g.next_serve s c u).score_p1 = g.score_p1 := by
  simp only [Game.next_serve]; split <;> rfl

/-- Property: `next_serve` does not change player-2's score. -/
theorem next_serve_score_p2 (g : Game) (s c u : ℝ) :
    (g.next_serve s c u).score_p2 = g.score_p2 := by
  simp only [Game.next_serve]; split <;> rfl

/-- Property: `next_serve` does not change the cumulative point count. -/
theorem next_serve_total (g : Game) (s c u : ℝ) :
    (g.next_serve s c u).total_points = g.total_points := by
  simp only [Game.next_serve]; split <;> rfl

/-- Property: `next_serve` does not change the game-over flag. -/
theorem next_serve_game_over (g : Game) (s c u : ℝ) :
    (g.next_serve s c u).game_over = g.game_over := by
  simp only [Game.next_serve]; split <;> rfl

/-- Property: `next_serve` does not change the winner. -/
theorem next_serve_winner (g : Game) (s c u : ℝ) :
    (g.next_serve s c u).winner = g.winner := by
  simp only [Game.next_serve]; split <;> rfl

/-- After `next_serve`, if the match is not over, the current server is
the serve-alternation rule evaluated on the resulting state. -/
theorem next_serve_server (g : Game) (s c u : ℝ)
    (h : (g.next_serve s c u).game_over = false) :
    (g.next_serve s c u).current_server = (g.next_serve s c u).determine_server := by
  unfold Game.next_serve at h ⊢
  by_cases hov : g.game_over
  · rw [if_pos hov] at h
    exact absurd h (by simp [hov])
  · rw [if_neg hov]
    exact determine_server_congr _ _ rfl rfl rfl

/-- Property: `award_point` adds one to exactly one score and one to the cumulative
point count. -/
theorem award_point_scores (g : Game) (p : ℕ) (s c u : ℝ) :
    (g.award_point p s c u).score_p1 = (if p = 1 then g.score_p1 + 1 else g.score_p1) ∧
    (g.award_point p s c u).score_p2 = (if p = 1 then g.score_p2 else g.score_p2 + 1) ∧
    (g.award_point p s c u).total_points = g.total_points + 1 := by
  unfold Game.award_point Game.scoreBump
  by_cases hp : p = 1 <;>
    simp [hp, next_serve_score_p1, next_serve_score_p2, next_serve_total,
      check_win_score_p1, check_win_score_p2, check_win_total]

/-- When the awarded point does not end the match, the new server is the
serve-alternation rule evaluated on the post-award state. -/
theorem award_point_server (g : Game) (p : ℕ) (s c u : ℝ)
    (h : (g.award_point p s c u).game_over = false) :
    (g.award_point p s c u).current_server = (g.award_point p s c u).determine_server := by
  unfold Game.award_point at h ⊢
  exact next_serve_server _ s c u h

/-- Property: `Game.update` outside play (paused, match over, or awaiting serve) is
the identity and emits nothing. -/
theorem update_not_in_play (g : Game) (dt s c u : ℝ)
    (h : g.paused = true ∨ g.game_over = true ∨ g.waiting_for_serve = true) :
    g.update dt s c u = (g, []) := by
  unfold Game.update
  rw [if_pos h]

/-- Property: `Game.update` in play, when the post-collision ball triggers no
scoring condition: paddles and ball advance, the speed clamp applies, and
no point is awarded. -/
theorem update_no_score (g : Game) (dt s c u : ℝ)
    (hp : g.paused = false) (ho : g.game_over = false) (hw : g.waiting_for_serve = false)
    (h1 : ¬ (g.stepBall dt).z > TABLE_HALF_DEPTH + 1.5)
    (h2 : ¬ (g.stepBall dt).z < -TABLE_HALF_DEPTH - 1.5)
    (h3 : ¬ (g.stepBall dt).check_out_of_bounds) :
    g.update dt s c u =
      (({ g with player1 := g.player1.update dt
                 player2 := g.player2.update dt
                 ball := g.stepBall dt } : Game).limit_speed, []) := by
  unfold Game.update
  rw [if_neg (by simp [hp, ho, hw])]
  simp only []
  rw [if_neg h1, if_neg h2, if_neg h3]

/-- C5 counterexample: at a concrete bouncing ball (inside the table,
moving downward, with nonzero horizontal velocity, landing on player 2's
half) the table-bounce resolution flips and damps `vy` and clamps `y`,
but leaves the horizontal velocity components `vx`, `vz` entirely
unchanged (no friction factor is applied), and increments the ball's one
and only bounce counter — there are no per-half counters to update or
reset.  This refutes the claim that horizontal velocity is reduced by a
friction factor and that per-half counters are maintained. -/
theorem C5_cex :
    ballC5.bounce_table = (mkBall 1 0.15 3 3 1.5 4 0 0 1, true) ∧
    (ballC5.bounce_table).1.vx = ballC5.vx ∧
    (ballC5.bounce_table).1.vz = ballC5.vz := by
  refine ⟨?_, ?_, ?_⟩ <;>
    norm_num [Ball.bounce_table, ballC5, mkBall, TABLE_HEIGHT, BALL_RADIUS,
      TABLE_HALF_WIDTH, TABLE_HALF_DEPTH, abs_lt]

/-- C5 amended: when the ball is below the surface threshold moving
downward and horizontally within table bounds, `bounce_table` clamps `y`
to `TABLE_HEIGHT + BALL_RADIUS`, sets `vy := -vy * 0.75` (restitution
0.75 < 1), increments the ball's single bounce counter, and leaves
position `x`, `z`, horizontal velocity `vx`, `vz` and spin unchanged;
in all other cases the ball is unchanged. -/
theorem C5_bounce_table_spec (b : Ball) :
    b.bounce_table =
      if bounceCond b then
        ({ b with y := TABLE_HEIGHT + BALL_RADIUS
                  vy := -b.vy * 0.75
                  table_bounces := b.table_bounces + 1 }, true)
      else (b, false) := by
  by_cases h : bounceCond b
  · rw [if_pos h]; exact bounce_table_of b h
  · rw [if_neg h]; exact bounce_table_of_not b h

/-- C6 counterexample: the integrator's velocity update is not the
claimed "gravity plus quadratic drag" function of the velocity alone.
At a ball at rest (`v = 0`) with topspin `spin_x = 2`, any update of the
form `v := v + g*dt - DRAG_COEFF * |v| * v * dt` leaves `vx = 0` (both
the drag term and gravity vanish on the x component), yet the code
produces `vx = 1` after `dt = 1`, because the actual update adds the
spin coupling `vx += spin_x * dt * 0.5` — and it does so after the
position update, which still uses the old `vx` (the x position stays 0). -/
theorem C6_cex :
    ballC6.vx = 0 ∧ ballC6.vy = 0 ∧ ballC6.vz = 0 ∧
    (ballC6.update 1).vx = 1 ∧ (ballC6.update 1).x = 0 := by
  refine ⟨rfl, rfl, rfl, ?_, ?_⟩ <;> norm_num [Ball.update, ballC6, mkBall, GRAVITY]

/-- C6 amended: the integrator applies gravity `vy += GRAVITY * dt`, then
the explicit-Euler position update (`y` uses the post-gravity `vy`; `x`
and `z` use the pre-spin `vx`, `vz`), and then couples spin into the
horizontal velocity components (`vx += spin_x * dt * 0.5`,
`vz += spin_z * dt * 0.5`).  No drag term of any kind is applied. -/
theorem C6_integrator_spec (b : Ball) (dt : ℝ) :
    b.update dt =
      { x := b.x + b.vx * dt
        y := b.y + (b.vy + GRAVITY * dt) * dt
        z := b.z + b.vz * dt
        vx := b.vx + b.spin_x * dt * 0.5
        vy := b.vy + GRAVITY * dt
        vz := b.vz + b.spin_z * dt * 0.5
        spin_x := b.spin_x
        spin_z := b.spin_z
        table_bounces := b.table_bounces } := rfl

/-- C7 amended: a `dt = 0` tick leaves the entire game state unchanged
and emits no event, provided the ball is not already in a colliding or
scoring configuration: no table-bounce guard, no paddle-collision guard,
not beyond either end of the play axis, not out of bounds, and horizontal
speed within the clamp.  (Outside play the tick is always the identity.)
Without these provisos the claim fails: see the counterexample. -/
theorem C7_dt_zero (g : Game) (s c u : ℝ)
    (hb : ¬ bounceCond g.ball)
    (hp1 : ¬ paddleHitCond g.ball g.player1)
    (hp2 : ¬ paddleHitCond g.ball g.player2)
    (hz1 : ¬ g.ball.z > TABLE_HALF_DEPTH + 1.5)
    (hz2 : ¬ g.ball.z < -TABLE_HALF_DEPTH - 1.5)
    (hoob : ¬ g.ball.check_out_of_bounds)
    (hsp : g.ball.vx ^ 2 + g.ball.vz ^ 2 ≤ max_speed ^ 2) :
    g.update 0 s c u = (g, []) := by
  by_cases hin : g.paused = true ∨ g.game_over = true ∨ g.waiting_for_serve = true
  · exact update_not_in_play g 0 s c u hin
  · have hstep : g.stepBall 0 = g.ball := by
      unfold Game.stepBall
      rw [ball_update_zero, paddle_update_zero, paddle_update_zero]
      rw [bounce_table_of_not _ hb]
      dsimp only
      rw [bounce_paddle_of_not g.ball g.player1 hp1]
      dsimp only
      rw [bounce_paddle_of_not g.ball g.player2 hp2]
    push_neg at hin
    obtain ⟨h1, h2, h3⟩ := hin
    rw [update_no_score g 0 s c u (by simpa using h1) (by simpa using h2) (by simpa using h3)
        (by rw [hstep]; exact hz1) (by rw [hstep]; exact hz2) (by rw [hstep]; exact hoob)]
    rw [hstep, paddle_update_zero, paddle_update_zero]
    rw [limit_speed_of_le _ hsp]

/-- Property: `Game.update` in play when no scoring condition fires and the
post-collision horizontal speed is within the clamp: the tick only
advances paddles and ball. -/
theorem update_no_score_le (g : Game) (dt s c u : ℝ)
    (hp : g.paused = false) (ho : g.game_over = false) (hw : g.waiting_for_serve = false)
    (h1 : ¬ (g.stepBall dt).z > TABLE_HALF_DEPTH + 1.5)
    (h2 : ¬ (g.stepBall dt).z < -TABLE_HALF_DEPTH - 1.5)
    (h3 : ¬ (g.stepBall dt).check_out_of_bounds)
    (hv : (g.stepBall dt).vx ^ 2 + (g.stepBall dt).vz ^ 2 ≤ max_speed ^ 2) :
    g.update dt s c u =
      (({ g with player1 := g.player1.update dt
                 player2 := g.player2.update dt
                 ball := g.stepBall dt } : Game), []) := by
  rw [update_no_score g dt s c u hp ho hw h1 h2 h3]
  rw [limit_speed_of_le ({ g with player1 := g.player1.update dt
                                  player2 := g.player2.update dt
                                  ball := g.stepBall dt } : Game) hv]

/-- C7 counterexample: an in-play tick with `dt = 0` does change the ball
when the ball already satisfies the table-bounce guard: the resolution
clamps `y` from 0.1 to `TABLE_HEIGHT + BALL_RADIUS = 0.15`, so the ball's
state is not left unchanged. -/
theorem C7_cex : ((gC7.update 0 0 1 2).1.ball.y ≠ gC7.ball.y) ∧
    (gC7.update 0 0 1 2).1.ball.y = TABLE_HEIGHT + BALL_RADIUS := by
  have hb1 : gC7.ball.bounce_table = (mkBall 0 0.15 0 0 0.75 1 0 0 1, true) := by
    norm_num [Ball.bounce_table, gC7, inPlayGame, mkBall, TABLE_HEIGHT, BALL_RADIUS,
      TABLE_HALF_WIDTH, TABLE_HALF_DEPTH, abs_lt]
  have hm1 : ¬ paddleHitCond (mkBall 0 0.15 0 0 0.75 1 0 0 1) gC7.player1 := by
    norm_num [paddleHitCond, gC7, inPlayGame, mkBall, Paddle.init, PADDLE_Z_OFFSET,
      PADDLE_DEPTH, BALL_RADIUS]
  have hm2 : ¬ paddleHitCond (mkBall 0 0.15 0 0 0.75 1 0 0 1) gC7.player2 := by
    norm_num [paddleHitCond, gC7, inPlayGame, mkBall, Paddle.init, PADDLE_Z_OFFSET,
      PADDLE_DEPTH, BALL_RADIUS]
  have hstep : gC7.stepBall 0 = mkBall 0 0.15 0 0 0.75 1 0 0 1 := by
    unfold Game.stepBall
    rw [ball_update_zero, paddle_update_zero, paddle_update_zero, hb1]
    dsimp only
    rw [bounce_paddle_of_not (mkBall 0 0.15 0 0 0.75 1 0 0 1) gC7.player1 hm1]
    dsimp only
    rw [bounce_paddle_of_not (mkBall 0 0.15 0 0 0.75 1 0 0 1) gC7.player2 hm2]
  have hA : ¬ (gC7.stepBall 0).z > TABLE_HALF_DEPTH + 1.5 := by
    rw [hstep]; norm_num [mkBall, TABLE_HALF_DEPTH]
  have hB : ¬ (gC7.stepBall 0).z < -TABLE_HALF_DEPTH - 1.5 := by
    rw [hstep]; norm_num [mkBall, TABLE_HALF_DEPTH]
  have hC : ¬ (gC7.stepBall 0).check_out_of_bounds := by
    rw [hstep]; norm_num [Ball.check_out_of_bounds, mkBall, TABLE_HALF_WIDTH]
  have hv : (gC7.stepBall 0).vx ^ 2 + (gC7.stepBall 0).vz ^ 2 ≤ max_speed ^ 2 := by
    rw [hstep]; norm_num [mkBall, max_speed]
  rw [update_no_score_le gC7 0 0 1 2 rfl rfl rfl hA hB hC hv]
  dsimp only
  rw [hstep]
  constructor
  · norm_num [mkBall, gC7, inPlayGame]
  · norm_num [mkBall, TABLE_HEIGHT, BALL_RADIUS]

/-- C7 witness: a concrete in-play mid-air state satisfying every proviso
of the amended claim; the zero-dt tick is exactly the identity. -/
theorem C7_witness : gQuiet.update 0 0 1 2 = (gQuiet, []) :=
  C7_dt_zero gQuiet 0 1 2
    (by norm_num [bounceCond, gQuiet, inPlayGame, mkBall, TABLE_HEIGHT, BALL_RADIUS])
    (by norm_num [paddleHitCond, gQuiet, inPlayGame, mkBall, Paddle.init, PADDLE_Z_OFFSET])
    (by norm_num [paddleHitCond, gQuiet, inPlayGame, mkBall, Paddle.init, PADDLE_Z_OFFSET])
    (by norm_num [gQuiet, inPlayGame, mkBall, TABLE_HALF_DEPTH])
    (by norm_num [gQuiet, inPlayGame, mkBall, TABLE_HALF_DEPTH])
    (by norm_num [Ball.check_out_of_bounds, gQuiet, inPlayGame, mkBall, TABLE_HALF_WIDTH])
    (by norm_num [gQuiet, inPlayGame, mkBall, max_speed])

/-- Evaluation of the collision pipeline on `gC1`'s ball at `dt = 0`:
the table bounce fires (the second consecutive bounce, counter 1 → 2) and
neither paddle is hit. -/
theorem gC1_step : gC1.stepBall 0 = mkBall 0 0.15 3 0 0.75 (-1) 0 0 2 := by
  have hb1 : gC1.ball.bounce_table = (mkBall 0 0.15 3 0 0.75 (-1) 0 0 2, true) := by
    norm_num [Ball.bounce_table, gC1, inPlayGame, mkBall, TABLE_HEIGHT, BALL_RADIUS,
      TABLE_HALF_WIDTH, TABLE_HALF_DEPTH, abs_lt]
  have hm1 : ¬ paddleHitCond (mkBall 0 0.15 3 0 0.75 (-1) 0 0 2) gC1.player1 := by
    norm_num [paddleHitCond, gC1, inPlayGame, mkBall, Paddle.init, PADDLE_Z_OFFSET,
      PADDLE_DEPTH, BALL_RADIUS]
  have hm2 : ¬ paddleHitCond (mkBall 0 0.15 3 0 0.75 (-1) 0 0 2) gC1.player2 := by
    norm_num [paddleHitCond, gC1, inPlayGame, mkBall, Paddle.init, PADDLE_Z_OFFSET,
      PADDLE_DEPTH, BALL_RADIUS]
  unfold Game.stepBall
  rw [ball_update_zero, paddle_update_zero, paddle_update_zero, hb1]
  dsimp only
  rw [bounce_paddle_of_not (mkBall 0 0.15 3 0 0.75 (-1) 0 0 2) gC1.player1 hm1]
  dsimp only
  rw [bounce_paddle_of_not (mkBall 0 0.15 3 0 0.75 (-1) 0 0 2) gC1.player2 hm2]

/-- C1 counterexample: an in-play tick in which the ball bounces on
player 2's half for the second consecutive time with no intervening
paddle hit (bounce counter goes 1 → 2), yet the tick emits no
`PointScored` at all and neither score changes: the double-bounce rule is
not implemented anywhere in `Game.update`. -/
theorem C1_cex :
    gC1.ball.table_bounces = 1 ∧
    (gC1.update 0 0 1 2).1.ball.table_bounces = 2 ∧
    (gC1.update 0 0 1 2).2 = [] ∧
    (gC1.update 0 0 1 2).1.score_p1 = gC1.score_p1 ∧
    (gC1.update 0 0 1 2).1.score_p2 = gC1.score_p2 := by
  have hA : ¬ (gC1.stepBall 0).z > TABLE_HALF_DEPTH + 1.5 := by
    rw [gC1_step]; norm_num [mkBall, TABLE_HALF_DEPTH]
  have hB : ¬ (gC1.stepBall 0).z < -TABLE_HALF_DEPTH - 1.5 := by
    rw [gC1_step]; norm_num [mkBall, TABLE_HALF_DEPTH]
  have hC : ¬ (gC1.stepBall 0).check_out_of_bounds := by
    rw [gC1_step]; norm_num [Ball.check_out_of_bounds, mkBall, TABLE_HALF_WIDTH]
  have hv : (gC1.stepBall 0).vx ^ 2 + (gC1.stepBall 0).vz ^ 2 ≤ max_speed ^ 2 := by
    rw [gC1_step]; norm_num [mkBall, max_speed]
  rw [update_no_score_le gC1 0 0 1 2 rfl rfl rfl hA hB hC hv]
  dsimp only
  rw [gC1_step]
  norm_num [mkBall, gC1, inPlayGame]

/-- C1 amended: the code has no double-bounce rule.  Whenever the
post-collision ball stays within the scoring bounds — in particular also
when the tick performed a second (or any) consecutive table bounce on one
side with no intervening paddle hit — the tick emits no `PointScored`,
leaves both scores unchanged, and merely carries over the incremented
bounce counter; points are only awarded when the ball leaves the play
volume. -/
theorem C1_no_double_bounce (g : Game) (dt s c u : ℝ)
    (hp : g.paused = false) (ho : g.game_over = false) (hw : g.waiting_for_serve = false)
    (h1 : ¬ (g.stepBall dt).z > TABLE_HALF_DEPTH + 1.5)
    (h2 : ¬ (g.stepBall dt).z < -TABLE_HALF_DEPTH - 1.5)
    (h3 : ¬ (g.stepBall dt).check_out_of_bounds) :
    (g.update dt s c u).2 = [] ∧
    (g.update dt s c u).1.score_p1 = g.score_p1 ∧
    (g.update dt s c u).1.score_p2 = g.score_p2 ∧
    (g.update dt s c u).1.ball.table_bounces = (g.stepBall dt).table_bounces := by
  rw [update_no_score g dt s c u hp ho hw h1 h2 h3]
  refine ⟨rfl, ?_, ?_, ?_⟩
  · exact limit_speed_score_p1 _
  · exact limit_speed_score_p2 _
  · exact limit_speed_bounces _

/-- C1 witness: the amended claim applied to the concrete double-bounce
tick of the counterexample state. -/
theorem C1_witness :
    (gC1.update 0 0 1 2).2 = [] ∧
    (gC1.update 0 0 1 2).1.score_p1 = gC1.score_p1 ∧
    (gC1.update 0 0 1 2).1.score_p2 = gC1.score_p2 ∧
    (gC1.update 0 0 1 2).1.ball.table_bounces = (gC1.stepBall 0).table_bounces :=
  C1_no_double_bounce gC1 0 0 1 2 rfl rfl rfl
    (by rw [gC1_step]; norm_num [mkBall, TABLE_HALF_DEPTH])
    (by rw [gC1_step]; norm_num [mkBall, TABLE_HALF_DEPTH])
    (by rw [gC1_step]; norm_num [Ball.check_out_of_bounds, mkBall, TABLE_HALF_WIDTH])

/-- C2 counterexample: the vertical velocity component is never clamped,
so the full 3D velocity magnitude after an in-play tick can exceed the
configured maximum: starting from `v = (0, -30, 1)` high above the table,
a `dt = 0` tick triggers no collision and no clamp branch (horizontal
speed is 1), leaving a squared magnitude of 901 > 400 = max_speed². -/
theorem C2_cex :
    (gC2.update 0 0 1 2).1.ball.vx ^ 2 + (gC2.update 0 0 1 2).1.ball.vy ^ 2 +
      (gC2.update 0 0 1 2).1.ball.vz ^ 2 > max_speed ^ 2 := by
  have hstep : gC2.stepBall 0 = gC2.ball := by
    unfold Game.stepBall
    rw [ball_update_zero, paddle_update_zero, paddle_update_zero]
    rw [bounce_table_of_not _ (by norm_num [bounceCond, gC2, inPlayGame, mkBall,
      TABLE_HEIGHT, BALL_RADIUS])]
    dsimp only
    rw [bounce_paddle_of_not gC2.ball gC2.player1 (by norm_num [paddleHitCond, gC2,
      inPlayGame, mkBall, Paddle.init, PADDLE_Z_OFFSET, PADDLE_DEPTH, BALL_RADIUS])]
    dsimp only
    rw [bounce_paddle_of_not gC2.ball gC2.player2 (by norm_num [paddleHitCond, gC2,
      inPlayGame, mkBall, Paddle.init, PADDLE_Z_OFFSET, PADDLE_DEPTH, BALL_RADIUS])]
  have hA : ¬ (gC2.stepBall 0).z > TABLE_HALF_DEPTH + 1.5 := by
    rw [hstep]; norm_num [gC2, inPlayGame, mkBall, TABLE_HALF_DEPTH]
  have hB : ¬ (gC2.stepBall 0).z < -TABLE_HALF_DEPTH - 1.5 := by
    rw [hstep]; norm_num [gC2, inPlayGame, mkBall, TABLE_HALF_DEPTH]
  have hC : ¬ (gC2.stepBall 0).check_out_of_bounds := by
    rw [hstep]; norm_num [Ball.check_out_of_bounds, gC2, inPlayGame, mkBall, TABLE_HALF_WIDTH]
  have hv : (gC2.stepBall 0).vx ^ 2 + (gC2.stepBall 0).vz ^ 2 ≤ max_speed ^ 2 := by
    rw [hstep]; norm_num [gC2, inPlayGame, mkBall, max_speed]
  rw [update_no_score_le gC2 0 0 1 2 rfl rfl rfl hA hB hC hv]
  dsimp only
  rw [hstep]
  norm_num [gC2, inPlayGame, mkBall, max_speed]

/-- C2 amended: only the horizontal speed is clamped.  After any in-play
tick, the squared horizontal speed `vx² + vz²` of the ball never exceeds
`max_speed²` (20² = 400), for every input velocity; the vertical
component `vy` is untouched by the clamp, so the 3D magnitude can exceed
the maximum (see the counterexample). -/
theorem C2_horizontal_clamp (g : Game) (dt s c u : ℝ)
    (hp : g.paused = false) (ho : g.game_over = false) (hw : g.waiting_for_serve = false) :
    (g.update dt s c u).1.ball.vx ^ 2 + (g.update dt s c u).1.ball.vz ^ 2 ≤ max_speed ^ 2 := by
  unfold Game.update
  rw [if_neg (by simp [hp, ho, hw])]
  dsimp only
  exact limit_speed_bound _

/-- C2 witness: the amended clamp bound at a concrete in-play state and
tick. -/
theorem C2_witness :
    (gQuiet.update 1 0 1 2).1.ball.vx ^ 2 + (gQuiet.update 1 0 1 2).1.ball.vz ^ 2 ≤
      max_speed ^ 2 :=
  C2_horizontal_clamp gQuiet 1 0 1 2 rfl rfl rfl

/-- C9 confirmed: from every game state, `reset_match` restores scores
(0,0), zero cumulative points, the awaiting-serve phase with no winner,
player 1 as server, unpauses, and clears the ball's bounce counter. -/
theorem C9_reset_match (g : Game) (s c u : ℝ) :
    (g.reset_match s c u).score_p1 = 0 ∧
    (g.reset_match s c u).score_p2 = 0 ∧
    (g.reset_match s c u).total_points = 0 ∧
    (g.reset_match s c u).waiting_for_serve = true ∧
    (g.reset_match s c u).game_over = false ∧
    (g.reset_match s c u).winner = none ∧
    (g.reset_match s c u).current_server = 1 ∧
    (g.reset_match s c u).paused = false ∧
    (g.reset_match s c u).ball.table_bounces = 0 :=
  ⟨rfl, rfl, rfl, rfl, rfl, rfl, rfl, rfl, rfl⟩

/-- Property: `check_win` when player 1 meets the winning condition. -/
theorem check_win_pos1 (g : Game) (h : winCond g.score_p1 g.score_p2) :
    g.check_win = { g with game_over := true, winner := some player1Name } := by
  unfold Game.check_win
  rw [if_pos h]

/-- Property: `check_win` when player 1 does not win but player 2 does. -/
theorem check_win_pos2 (g : Game) (h1 : ¬ winCond g.score_p1 g.score_p2)
    (h2 : winCond g.score_p2 g.score_p1) :
    g.check_win = { g with game_over := true, winner := some player2Name } := by
  unfold Game.check_win
  rw [if_neg h1, if_pos h2]

/-- Property: `check_win` when neither player meets the winning condition. -/
theorem check_win_none (g : Game) (h1 : ¬ winCond g.score_p1 g.score_p2)
    (h2 : ¬ winCond g.score_p2 g.score_p1) : g.check_win = g := by
  unfold Game.check_win
  rw [if_neg h1, if_neg h2]

/-- Property: `next_serve` when the match just ended. -/
theorem next_serve_over (g : Game) (s c u : ℝ) (h : g.game_over = true) :
    g.next_serve s c u = g := by
  unfold Game.next_serve
  rw [if_pos h]

/-- Property: `next_serve` when the match continues. -/
theorem next_serve_not_over (g : Game) (s c u : ℝ) (h : g.game_over = false) :
    g.next_serve s c u =
      { g with current_server := g.determine_server
               waiting_for_serve := true
               ball := Ball.reset g.determine_server s c u } := by
  unfold Game.next_serve
  rw [if_neg (by simp [h])]

/-- C3 confirmed: awarding a point to player `p` (from a state where the
match is not yet won) transitions to match-over with winner `p` exactly
when `p`'s new score is at least `POINTS_TO_WIN` and `p` leads the
opponent by at least `WIN_BY`; otherwise the match returns to awaiting
serve with no winner. -/
theorem C3_award_win_iff (g : Game) (p : ℕ) (s c u : ℝ)
    (hp : p = 1 ∨ p = 2)
    (ho : g.game_over = false)
    (hw : g.winner = none)
    (hopp : ¬ winCond (if p = 1 then g.score_p2 else g.score_p1)
      (if p = 1 then g.score_p1 else g.score_p2)) :
    (winCond ((if p = 1 then g.score_p1 else g.score_p2) + 1)
        (if p = 1 then g.score_p2 else g.score_p1) →
      (g.award_point p s c u).game_over = true ∧
      (g.award_point p s c u).winner = some (if p = 1 then player1Name else player2Name)) ∧
    (¬ winCond ((if p = 1 then g.score_p1 else g.score_p2) + 1)
        (if p = 1 then g.score_p2 else g.score_p1) →
      (g.award_point p s c u).game_over = false ∧
      (g.award_point p s c u).winner = none ∧
      (g.award_point p s c u).waiting_for_serve = true) := by
  rcases hp with hp | hp <;> subst hp
  · -- player 1 scores
    have hopp1 : ¬ winCond g.score_p2 g.score_p1 := hopp
    have harj : g.award_point 1 s c u = ((g.scoreBump 1).check_win).next_serve s c u := rfl
    by_cases hwin : winCond (g.score_p1 + 1) g.score_p2
    · have hcw := check_win_pos1 (g.scoreBump 1) hwin
      rw [harj, hcw]
      exact ⟨fun _ => ⟨rfl, rfl⟩, fun hc => absurd hwin hc⟩
    · have h2 : ¬ winCond g.score_p2 (g.score_p1 + 1) := by
        intro hc
        refine hopp1 ⟨hc.1, ?_⟩
        have h3 := hc.2
        push_cast at h3 ⊢
        omega
      have hcw := check_win_none (g.scoreBump 1) hwin h2
      rw [harj, hcw, next_serve_not_over (g.scoreBump 1) s c u ho]
      exact ⟨fun hc => absurd hc hwin, fun _ => ⟨ho, hw, rfl⟩⟩
  · -- player 2 scores
    have hopp1 : ¬ winCond g.score_p1 g.score_p2 := hopp
    have harj : g.award_point 2 s c u = ((g.scoreBump 2).check_win).next_serve s c u := rfl
    by_cases hwin : winCond (g.score_p2 + 1) g.score_p1
    · have h1 : ¬ winCond g.score_p1 (g.score_p2 + 1) := by
        intro hc
        refine hopp1 ⟨hc.1, ?_⟩
        have h3 := hc.2
        push_cast at h3 ⊢
        omega
      have hcw := check_win_pos2 (g.scoreBump 2) h1 hwin
      rw [harj, hcw]
      exact ⟨fun _ => ⟨rfl, rfl⟩, fun hc => absurd hwin hc⟩
    · have h1 : ¬ winCond g.score_p1 (g.score_p2 + 1) := by
        intro hc
        refine hopp1 ⟨hc.1, ?_⟩
        have h3 := hc.2
        push_cast at h3 ⊢
        omega
      have hcw := check_win_none (g.scoreBump 2) h1 hwin
      rw [harj, hcw, next_serve_not_over (g.scoreBump 2) s c u ho]
      exact ⟨fun hc => absurd hc hwin, fun _ => ⟨ho, hw, rfl⟩⟩

/-- C3 witness: from (10, 5), awarding player 1 the point ends the match
with player 1 as winner (11 ≥ 11 and lead 6 ≥ 2). -/
theorem C3_witness :
    winCond (gC3.score_p1 + 1) gC3.score_p2 ∧
    (gC3.award_point 1 0 1 2).game_over = true ∧
    (gC3.award_point 1 0 1 2).winner = some player1Name := by
  have h := C3_award_win_iff gC3 1 0 1 2 (Or.inl rfl) rfl rfl (by decide)
  have hwin : winCond (gC3.score_p1 + 1) gC3.score_p2 := by decide
  exact ⟨hwin, (h.1 hwin).1, (h.1 hwin).2⟩

/-- C4 confirmed: (i) at construction (scores (0,0)) the server is
player 1; (ii) after the point sequence P1, P1 from the initial state the
server is player 2; (iii) after every awarded point that does not end the
match, the current server equals the serve-alternation rule evaluated on
the new state; (iv) before both players reach the deuce threshold the
rule keeps the server constant across an odd cumulative point and
(v) flips it every 2 cumulative points; (vi) once both scores are at
least the deuce threshold, the rule flips the server on every single
point. -/
theorem C4_serve_alternation :
    (∀ s c u : ℝ, (Game.init s c u).current_server = 1) ∧
    ((((Game.init 0 1 2).award_point 1 0 1 2).award_point 1 0 1 2).current_server = 2) ∧
    (∀ g : Game, ∀ p : ℕ, ∀ s c u : ℝ, (g.award_point p s c u).game_over = false →
      (g.award_point p s c u).current_server = (g.award_point p s c u).determine_server) ∧
    (∀ g h : Game, ¬ (DEUCE_POINT ≤ g.score_p1 ∧ DEUCE_POINT ≤ g.score_p2) →
      ¬ (DEUCE_POINT ≤ h.score_p1 ∧ DEUCE_POINT ≤ h.score_p2) →
      g.total_points % 2 = 0 → h.total_points = g.total_points + 1 →
      h.determine_server = g.determine_server) ∧
    (∀ g h : Game, ¬ (DEUCE_POINT ≤ g.score_p1 ∧ DEUCE_POINT ≤ g.score_p2) →
      ¬ (DEUCE_POINT ≤ h.score_p1 ∧ DEUCE_POINT ≤ h.score_p2) →
      h.total_points = g.total_points + 2 →
      h.determine_server ≠ g.determine_server) ∧
    (∀ g h : Game, (DEUCE_POINT ≤ g.score_p1 ∧ DEUCE_POINT ≤ g.score_p2) →
      (DEUCE_POINT ≤ h.score_p1 ∧ DEUCE_POINT ≤ h.score_p2) →
      h.total_points = g.total_points + 1 →
      h.determine_server ≠ g.determine_server) := by
  refine ⟨fun s c u => rfl, by decide, fun g p s c u h => award_point_server g p s c u h,
    ?_, ?_, ?_⟩
  · intro g h hg hh hpar ht
    unfold Game.determine_server
    rw [if_neg hg, if_neg hh, ht]
    have h2 : (g.total_points + 1) / 2 = g.total_points / 2 := by omega
    rw [h2]
  · intro g h hg hh ht
    unfold Game.determine_server
    rw [if_neg hg, if_neg hh, ht]
    have h2 : (g.total_points + 2) / 2 = g.total_points / 2 + 1 := by omega
    rw [h2]
    by_cases hpar : g.total_points / 2 % 2 = 0
    · rw [if_pos hpar, if_neg (by omega)]
      norm_num
    · rw [if_neg hpar, if_pos (by omega)]
      norm_num
  · intro g h hg hh ht
    unfold Game.determine_server
    rw [if_pos hg, if_pos hh, ht]
    by_cases hpar : g.total_points % 2 = 0
    · rw [if_pos hpar, if_neg (by omega)]
      norm_num
    · rw [if_neg hpar, if_pos (by omega)]
      norm_num

/-- C4 witness: the alternation facts at concrete states — initial server,
server 2 after P1 P1, the recomputation equation after a point from the
quiet state, pre-deuce pair-constancy (totals 0 and 1) and flip (totals 0
and 2), and the deuce-phase flip from (10,10) to (11,10). -/
theorem C4_witness :
    (Game.init 0 1 2).current_server = 1 ∧
    ((((Game.init 0 1 2).award_point 1 0 1 2).award_point 1 0 1 2).current_server = 2) ∧
    ((gQuiet.award_point 1 0 1 2).current_server =
      (gQuiet.award_point 1 0 1 2).determine_server) ∧
    ((inPlayGame (mkBall 0 2 0 0 0 0 0 0 0) 1 0 1).determine_server =
      gQuiet.determine_server) ∧
    ((inPlayGame (mkBall 0 2 0 0 0 0 0 0 0) 2 0 2).determine_server ≠
      gQuiet.determine_server) ∧
    (gDeuceNext.determine_server ≠ gDeuce.determine_server) := by
  have h := C4_serve_alternation
  exact ⟨h.1 0 1 2, h.2.1,
    h.2.2.1 gQuiet 1 0 1 2 (by decide),
    h.2.2.2.1 gQuiet (inPlayGame (mkBall 0 2 0 0 0 0 0 0 0) 1 0 1)
      (by decide) (by decide) (by decide) (by decide),
    h.2.2.2.2.1 gQuiet (inPlayGame (mkBall 0 2 0 0 0 0 0 0 0) 2 0 2)
      (by decide) (by decide) (by decide),
    h.2.2.2.2.2 gDeuce gDeuceNext (by decide) (by decide) (by decide)⟩

/-- Property: `award_point` increases the sum of the two scores by exactly one. -/
theorem award_point_sum (g : Game) (p : ℕ) (s c u : ℝ) :
    (g.award_point p s c u).score_p1 + (g.award_point p s c u).score_p2 =
      g.score_p1 + g.score_p2 + 1 := by
  obtain ⟨h1, h2, h3⟩ := award_point_scores g p s c u
  rw [h1, h2]
  by_cases hp : p = 1 <;> simp [hp] <;> omega

/-- Property: `Game.update` in play when the ball crossed player 2's end. -/
theorem update_score1 (g : Game) (dt s c u : ℝ)
    (hin : ¬ (g.paused = true ∨ g.game_over = true ∨ g.waiting_for_serve = true))
    (hA : (g.stepBall dt).z > TABLE_HALF_DEPTH + 1.5) :
    g.update dt s c u =
      ((({ g with player1 := g.player1.update dt
                  player2 := g.player2.update dt
                  ball := g.stepBall dt } : Game).award_point 1 s c u).limit_speed,
        [GameEvent.pointScored 1]) := by
  unfold Game.update
  rw [if_neg hin]
  dsimp only
  rw [if_pos hA]

/-- Property: `Game.update` in play when the ball crossed player 1's end. -/
theorem update_score2 (g : Game) (dt s c u : ℝ)
    (hin : ¬ (g.paused = true ∨ g.game_over = true ∨ g.waiting_for_serve = true))
    (hA : ¬ (g.stepBall dt).z > TABLE_HALF_DEPTH + 1.5)
    (hB : (g.stepBall dt).z < -TABLE_HALF_DEPTH - 1.5) :
    g.update dt s c u =
      ((({ g with player1 := g.player1.update dt
                  player2 := g.player2.update dt
                  ball := g.stepBall dt } : Game).award_point 2 s c u).limit_speed,
        [GameEvent.pointScored 2]) := by
  unfold Game.update
  rw [if_neg hin]
  dsimp only
  rw [if_neg hA, if_pos hB]

/-- Property: `Game.update` in play when the ball left sideways or fell, moving
toward player 2. -/
theorem update_oob1 (g : Game) (dt s c u : ℝ)
    (hin : ¬ (g.paused = true ∨ g.game_over = true ∨ g.waiting_for_serve = true))
    (hA : ¬ (g.stepBall dt).z > TABLE_HALF_DEPTH + 1.5)
    (hB : ¬ (g.stepBall dt).z < -TABLE_HALF_DEPTH - 1.5)
    (hC : (g.stepBall dt).check_out_of_bounds)
    (hD : (g.stepBall dt).vz > 0) :
    g.update dt s c u =
      ((({ g with player1 := g.player1.update dt
                  player2 := g.player2.update dt
                  ball := g.stepBall dt } : Game).award_point 1 s c u).limit_speed,
        [GameEvent.pointScored 1]) := by
  unfold Game.update
  rw [if_neg hin]
  dsimp only
  rw [if_neg hA, if_neg hB, if_pos hC, if_pos hD]

/-- Property: `Game.update` in play when the ball left sideways or fell, moving
toward player 1. -/
theorem update_oob2 (g : Game) (dt s c u : ℝ)
    (hin : ¬ (g.paused = true ∨ g.game_over = true ∨ g.waiting_for_serve = true))
    (hA : ¬ (g.stepBall dt).z > TABLE_HALF_DEPTH + 1.5)
    (hB : ¬ (g.stepBall dt).z < -TABLE_HALF_DEPTH - 1.5)
    (hC : (g.stepBall dt).check_out_of_bounds)
    (hD : ¬ (g.stepBall dt).vz > 0) :
    g.update dt s c u =
      ((({ g with player1 := g.player1.update dt
                  player2 := g.player2.update dt
                  ball := g.stepBall dt } : Game).award_point 2 s c u).limit_speed,
        [GameEvent.pointScored 2]) := by
  unfold Game.update
  rw [if_neg hin]
  dsimp only
  rw [if_neg hA, if_neg hB, if_pos hC, if_neg hD]

/-- C8 confirmed: every tick performs at most one scoring resolution —
the sum of the two scores grows by at most one, the tick awards at most
one point (the first qualifying condition of the `if/elif/elif` chain
wins), and an in-play tick whose post-collision ball is beyond either end
of the play axis awards exactly one point, never two. -/
theorem C8_single_score (g : Game) (dt s c u : ℝ) :
    ((g.update dt s c u).1.score_p1 + (g.update dt s c u).1.score_p2 ≤
      g.score_p1 + g.score_p2 + 1) ∧
    ((g.update dt s c u).2.length ≤ 1) ∧
    (g.paused = false → g.game_over = false → g.waiting_for_serve = false →
      ((g.stepBall dt).z > TABLE_HALF_DEPTH + 1.5 ∨
        (g.stepBall dt).z < -TABLE_HALF_DEPTH - 1.5) →
      (g.update dt s c u).2 = [GameEvent.pointScored 1] ∨
      (g.update dt s c u).2 = [GameEvent.pointScored 2]) := by
  by_cases hin : g.paused = true ∨ g.game_over = true ∨ g.waiting_for_serve = true
  · rw [update_not_in_play g dt s c u hin]
    refine ⟨by dsimp only; omega, by simp, fun hp ho hw _ => ?_⟩
    exfalso
    rcases hin with h | h | h
    · exact absurd h (by simp [hp])
    · exact absurd h (by simp [ho])
    · exact absurd h (by simp [hw])
  · have hgp : g.paused = false := by
      rcases Bool.eq_false_or_eq_true g.paused with h | h
      · exact absurd (Or.inl h) hin
      · exact h
    have hgo : g.game_over = false := by
      rcases Bool.eq_false_or_eq_true g.game_over with h | h
      · exact absurd (Or.inr (Or.inl h)) hin
      · exact h
    have hgw : g.waiting_for_serve = false := by
      rcases Bool.eq_false_or_eq_true g.waiting_for_serve with h | h
      · exact absurd (Or.inr (Or.inr h)) hin
      · exact h
    by_cases hA : (g.stepBall dt).z > TABLE_HALF_DEPTH + 1.5
    · rw [update_score1 g dt s c u hin hA]
      dsimp only
      refine ⟨?_, by simp, fun _ _ _ _ => Or.inl rfl⟩
      rw [limit_speed_score_p1, limit_speed_score_p2, award_point_sum]
    · by_cases hB : (g.stepBall dt).z < -TABLE_HALF_DEPTH - 1.5
      · rw [update_score2 g dt s c u hin hA hB]
        dsimp only
        refine ⟨?_, by simp, fun _ _ _ _ => Or.inr rfl⟩
        rw [limit_speed_score_p1, limit_speed_score_p2, award_point_sum]
      · by_cases hC : (g.stepBall dt).check_out_of_bounds
        · by_cases hD : (g.stepBall dt).vz > 0
          · rw [update_oob1 g dt s c u hin hA hB hC hD]
            dsimp only
            refine ⟨?_, by simp, fun _ _ _ hz => ?_⟩
            · rw [limit_speed_score_p1, limit_speed_score_p2, award_point_sum]
            · exact Or.inl rfl
          · rw [update_oob2 g dt s c u hin hA hB hC hD]
            dsimp only
            refine ⟨?_, by simp, fun _ _ _ hz => ?_⟩
            · rw [limit_speed_score_p1, limit_speed_score_p2, award_point_sum]
            · exact Or.inr rfl
        · rw [update_no_score g dt s c u hgp hgo hgw hA hB hC]
          dsimp only
          refine ⟨?_, by simp, fun _ _ _ hz => ?_⟩
          · rw [limit_speed_score_p1, limit_speed_score_p2]
            dsimp only
            omega
          · exfalso
            rcases hz with hz | hz
            · exact absurd hz hA
            · exact absurd hz hB

/-- C8 witness: the in-play state whose ball is already beyond player 2's
end awards exactly one point in the tick, and the score sum grows by at
most one. -/
theorem C8_witness :
    ((gC8.update 0 0 1 2).1.score_p1 + (gC8.update 0 0 1 2).1.score_p2 ≤
      gC8.score_p1 + gC8.score_p2 + 1) ∧
    ((gC8.update 0 0 1 2).2 = [GameEvent.pointScored 1] ∨
      (gC8.update 0 0 1 2).2 = [GameEvent.pointScored 2]) := by
  have h := C8_single_score gC8 0 0 1 2
  refine ⟨h.1, h.2.2 rfl rfl rfl (Or.inl ?_)⟩
  have hstep : gC8.stepBall 0 = gC8.ball := by
    unfold Game.stepBall
    rw [ball_update_zero, paddle_update_zero, paddle_update_zero]
    rw [bounce_table_of_not _ (by norm_num [bounceCond, gC8, inPlayGame, mkBall,
      TABLE_HEIGHT, BALL_RADIUS])]
    dsimp only
    rw [bounce_paddle_of_not gC8.ball gC8.player1 (by norm_num [paddleHitCond, gC8,
      inPlayGame, mkBall, Paddle.init, PADDLE_Z_OFFSET, PADDLE_DEPTH, BALL_RADIUS])]
    dsimp only
    rw [bounce_paddle_of_not gC8.ball gC8.player2 (by norm_num [paddleHitCond, gC8,
      inPlayGame, mkBall, Paddle.init, PADDLE_Z_OFFSET, PADDLE_DEPTH, BALL_RADIUS])]
  rw [hstep]
  norm_num [gC8, inPlayGame, mkBall, TABLE_HALF_DEPTH]

/-- Property: `serve_ball` does not change scores or the point count. -/
theorem serve_ball_fields (g : Game) (s c u : ℝ) :
    (g.serve_ball s c u).score_p1 = g.score_p1 ∧
    (g.serve_ball s c u).score_p2 = g.score_p2 ∧
    (g.serve_ball s c u).total_points = g.total_points := by
  unfold Game.serve_ball
  split <;> exact ⟨rfl, rfl, rfl⟩

/-- Property: `toggle_pause` does not change scores or the point count. -/
theorem toggle_pause_fields (g : Game) :
    g.toggle_pause.score_p1 = g.score_p1 ∧
    g.toggle_pause.score_p2 = g.score_p2 ∧
    g.toggle_pause.total_points = g.total_points := by
  unfold Game.toggle_pause
  split <;> exact ⟨rfl, rfl, rfl⟩

/-- The SPACE handler does not change scores or the point count. -/
theorem start_serve_fields (g : Game) :
    g.start_serve.score_p1 = g.score_p1 ∧
    g.start_serve.score_p2 = g.score_p2 ∧
    g.start_serve.total_points = g.total_points := by
  unfold Game.start_serve
  split <;> exact ⟨rfl, rfl, rfl⟩

/-- One tick preserves the `total_points = score_p1 + score_p2`
invariant. -/
theorem update_inv (g : Game) (dt s c u : ℝ)
    (h : g.total_points = g.score_p1 + g.score_p2) :
    (g.update dt s c u).1.total_points =
      (g.update dt s c u).1.score_p1 + (g.update dt s c u).1.score_p2 := by
  by_cases hin : g.paused = true ∨ g.game_over = true ∨ g.waiting_for_serve = true
  · rw [update_not_in_play g dt s c u hin]
    exact h
  · have hgp : g.paused = false := by
      rcases Bool.eq_false_or_eq_true g.paused with hb | hb
      · exact absurd (Or.inl hb) hin
      · exact hb
    have hgo : g.game_over = false := by
      rcases Bool.eq_false_or_eq_true g.game_over with hb | hb
      · exact absurd (Or.inr (Or.inl hb)) hin
      · exact hb
    have hgw : g.waiting_for_serve = false := by
      rcases Bool.eq_false_or_eq_true g.waiting_for_serve with hb | hb
      · exact absurd (Or.inr (Or.inr hb)) hin
      · exact hb
    by_cases hA : (g.stepBall dt).z > TABLE_HALF_DEPTH + 1.5
    · rw [update_score1 g dt s c u hin hA]
      dsimp only
      rw [limit_speed_total, limit_speed_score_p1, limit_speed_score_p2,
        (award_point_scores _ 1 s c u).2.2, award_point_sum]
      dsimp only
      omega
    · by_cases hB : (g.stepBall dt).z < -TABLE_HALF_DEPTH - 1.5
      · rw [update_score2 g dt s c u hin hA hB]
        dsimp only
        rw [limit_speed_total, limit_speed_score_p1, limit_speed_score_p2,
          (award_point_scores _ 2 s c u).2.2, award_point_sum]
        dsimp only
        omega
      · by_cases hC : (g.stepBall dt).check_out_of_bounds
        · by_cases hD : (g.stepBall dt).vz > 0
          · rw [update_oob1 g dt s c u hin hA hB hC hD]
            dsimp only
            rw [limit_speed_total, limit_speed_score_p1, limit_speed_score_p2,
              (award_point_scores _ 1 s c u).2.2, award_point_sum]
            dsimp only
            omega
          · rw [update_oob2 g dt s c u hin hA hB hC hD]
            dsimp only
            rw [limit_speed_total, limit_speed_score_p1, limit_speed_score_p2,
              (award_point_scores _ 2 s c u).2.2, award_point_sum]
            dsimp only
            omega
        · rw [update_no_score g dt s c u hgp hgo hgw hA hB hC]
          dsimp only
          rw [limit_speed_total, limit_speed_score_p1, limit_speed_score_p2]
          exact h

/-- In every reachable game state the cumulative point count is the sum
of the two scores. -/
theorem reachable_inv (g : Game) (hg : Reachable g) :
    g.total_points = g.score_p1 + g.score_p2 := by
  induction hg with
  | init s c u => rfl
  | update g dt s c u hg ih => exact update_inv g dt s c u ih
  | award g p s c u hg ih =>
      obtain ⟨h1, h2, h3⟩ := award_point_scores g p s c u
      rw [h3, h1, h2]
      by_cases hp : p = 1 <;> simp [hp] <;> omega
  | reset g s c u hg ih => rfl
  | serve g s c u hg ih =>
      obtain ⟨h1, h2, h3⟩ := serve_ball_fields g s c u
      rw [h3, h1, h2]
      exact ih
  | pause g hg ih =>
      obtain ⟨h1, h2, h3⟩ := toggle_pause_fields g
      rw [h3, h1, h2]
      exact ih
  | start g hg ih =>
      obtain ⟨h1, h2, h3⟩ := start_serve_fields g
      rw [h3, h1, h2]
      exact ih

/-- C10 confirmed: `total_points` is 0 at construction and after
`reset_match`; `award_point` adds one to exactly one player's score and
one to `total_points`; in every reachable state
`total_points = score_p1 + score_p2`; and consequently on reachable
states `determine_server` is the function `serverOfScores` of the two
scores alone. -/
theorem C10_total_invariant :
    (∀ s c u : ℝ, (Game.init s c u).total_points = 0 ∧
      (Game.init s c u).score_p1 = 0 ∧ (Game.init s c u).score_p2 = 0) ∧
    (∀ g : Game, ∀ s c u : ℝ, (g.reset_match s c u).total_points = 0 ∧
      (g.reset_match s c u).score_p1 = 0 ∧ (g.reset_match s c u).score_p2 = 0) ∧
    (∀ g : Game, ∀ p : ℕ, ∀ s c u : ℝ,
      (g.award_point p s c u).total_points = g.total_points + 1 ∧
      (g.award_point p s c u).score_p1 = (if p = 1 then g.score_p1 + 1 else g.score_p1) ∧
      (g.award_point p s c u).score_p2 = (if p = 1 then g.score_p2 else g.score_p2 + 1)) ∧
    (∀ g : Game, Reachable g → g.total_points = g.score_p1 + g.score_p2) ∧
    (∀ g : Game, Reachable g →
      g.determine_server = serverOfScores g.score_p1 g.score_p2) := by
  refine ⟨fun s c u => ⟨rfl, rfl, rfl⟩, fun g s c u => ⟨rfl, rfl, rfl⟩,
    fun g p s c u => ?_, fun g hg => reachable_inv g hg, fun g hg => ?_⟩
  · obtain ⟨h1, h2, h3⟩ := award_point_scores g p s c u
    exact ⟨h3, h1, h2⟩
  · have h := reachable_inv g hg
    unfold Game.determine_server serverOfScores
    rw [h]

/-- C10 witness: the invariant and the scores-only server rule applied to
concrete reachable states (the initial state and the state after one
awarded point), and the award increments at the initial state. -/
theorem C10_witness :
    ((Game.init 0 1 2).total_points =
      (Game.init 0 1 2).score_p1 + (Game.init 0 1 2).score_p2) ∧
    (((Game.init 0 1 2).award_point 1 0 1 2).total_points =
      ((Game.init 0 1 2).award_point 1 0 1 2).score_p1 +
        ((Game.init 0 1 2).award_point 1 0 1 2).score_p2) ∧
    ((Game.init 0 1 2).determine_server =
      serverOfScores (Game.init 0 1 2).score_p1 (Game.init 0 1 2).score_p2) ∧
    (((Game.init 0 1 2).award_point 1 0 1 2).total_points =
      (Game.init 0 1 2).total_points + 1) := by
  have h := C10_total_invariant
  exact ⟨h.2.2.2.1 _ (Reachable.init 0 1 2),
    h.2.2.2.1 _ (Reachable.award _ 1 0 1 2 (Reachable.init 0 1 2)),
    h.2.2.2.2 _ (Reachable.init 0 1 2),
    (h.2.2.1 (Game.init 0 1 2) 1 0 1 2).1⟩
